import Mathlib

/-!
Shallow embedding of the Dungeons-Profit-Calculator market-tracking core
(src/utils/auctions.py, src/utils/bazzar.py, src/api/chest_calculator.py).

SQLite tables are modelled as Lean lists of row structures; `INSERT OR
REPLACE` on a primary key removes the conflicting rows and appends the new
one, `INSERT OR IGNORE` skips a row whose key is already present, and
`DELETE FROM t` followed by a bulk insert is a rebuild from the empty list.
SQL `LOWER` folds ASCII letters only, exactly as SQLite's built-in does.
Python `round(x, 2)` is modelled as round-half-to-even at two decimals over
exact rationals.  Wall-clock reads (`time.time()`) are passed in as explicit
timestamp arguments.
-/

/-- ASCII-only lowercase of one character, as SQLite's LOWER applies it. -/
def sqlLowerChar (c : Char) : Char :=
  if 'A' ≤ c ∧ c ≤ 'Z' then Char.ofNat (c.toNat + 32) else c

/-- SQLite LOWER: ASCII-only lowercase of a string. -/
def sqlLower (s : String) : String := String.mk (s.data.map sqlLowerChar)

/-- Python `name.replace('_', ' ')`: every underscore becomes a space. -/
def underscoresToSpaces (s : String) : String :=
  String.mk (s.data.map (fun c => if c == '_' then ' ' else c))

/-- Python `name.startswith(pre)`: character-wise prefixhood. -/
def startsWithStr (s pre : String) : Bool := pre.data.isPrefixOf s.data

/-- Python `c in name` for a single character: character containment. -/
def containsChar (s : String) (c : Char) : Bool := s.data.contains c

/-- SQLite `INSERT OR REPLACE` on a table keyed by `key`: rows carrying the
new row's key are deleted and the new row is appended. -/
def insertOrReplaceBy {α κ : Type} [BEq κ] (key : α → κ) (xs : List α) (x : α) : List α :=
  xs.filter (fun y => !(key y == key x)) ++ [x]

/-- SQLite `INSERT OR IGNORE` on a table keyed by `key`: the row is dropped
when its key is already present. -/
def insertOrIgnoreBy {α κ : Type} [BEq κ] (key : α → κ) (xs : List α) (x : α) : List α :=
  if xs.any (fun y => key y == key x) then xs else xs ++ [x]

/-- Python dict comprehension `{key(row): row for row in rows}` keyed
iteration: when a key repeats, the last row wins. -/
def dedupKeepLastBy {α κ : Type} [BEq κ] (key : α → κ) : List α → List α
  | [] => []
  | x :: xs =>
      if xs.any (fun y => key y == key x) then dedupKeepLastBy key xs
      else x :: dedupKeepLastBy key xs

/-- Round-half-to-even to an integer (Python's `round` tie rule). -/
def roundHalfEven (q : ℚ) : ℤ :=
  let f := ⌊q⌋
  if q - (f : ℚ) < 1/2 then f
  else if 1/2 < q - (f : ℚ) then f + 1
  else if f % 2 = 0 then f else f + 1

/-- Python `round(x, 2)` over exact rationals. -/
def round2 (q : ℚ) : ℚ := (roundHalfEven (q * 100) : ℚ) / 100

/-- A row of the `auctions` table (the current listing snapshot),
src/utils/auctions.py `setup_database`. -/
structure AuctionRow where
  uuid : String
  auctioneer : String
  profile_id : String
  item_name : String
  tier : String
  category : String
  starting_bid : Int
  highest_bid_amount : Int
  bin : Int
  start_time : Int
  end_time : Int
  last_updated : Int
  claimed : Int
  fetch_timestamp : Int
deriving DecidableEq

/-- A row of the `auction_history` table, PRIMARY KEY (uuid, fetch_timestamp). -/
structure HistoryRow where
  uuid : String
  item_name : String
  tier : String
  starting_bid : Int
  bin : Int
  claimed : Int
  end_time : Int
  fetch_timestamp : Int
deriving DecidableEq

/-- A row of the `auction_sales` table, PRIMARY KEY uuid. -/
structure SaleRow where
  uuid : String
  item_name : String
  tier : String
  price : Int
  first_seen : Int
  last_seen : Int
  sold_timestamp : Int
deriving DecidableEq

/-- The three tables of the auction tracker's database. -/
structure AuctionDB where
  auctions : List AuctionRow
  history : List HistoryRow
  sales : List SaleRow
deriving DecidableEq

/-- The empty database created by `HypixelAuctionTracker.setup_database`. -/
def initial_auction_db : AuctionDB := { auctions := [], history := [], sales := [] }

/-- One element of the poll list handed to `store_auctions`, with the fields
the method reads off each auction dict (`uuid`, `item_name`, `tier`,
`starting_bid`, `bin`, `claimed`, `end`, and the passthrough columns). -/
structure AuctionInput where
  uuid : String
  auctioneer : String
  profile_id : String
  item_name : String
  tier : String
  category : String
  starting_bid : Int
  highest_bid_amount : Int
  bin : Bool
  start : Int
  end_time : Int
  last_updated : Int
  claimed : Bool
deriving DecidableEq

/-- The snapshot row `store_auctions` appends for a poll entry
(`1 if auction.get('bin') else 0`, likewise for `claimed`). -/
def toAuctionRow (a : AuctionInput) (fetch_timestamp : Int) : AuctionRow :=
  { uuid := a.uuid, auctioneer := a.auctioneer, profile_id := a.profile_id,
    item_name := a.item_name, tier := a.tier, category := a.category,
    starting_bid := a.starting_bid, highest_bid_amount := a.highest_bid_amount,
    bin := if a.bin then 1 else 0, start_time := a.start, end_time := a.end_time,
    last_updated := a.last_updated, claimed := if a.claimed then 1 else 0,
    fetch_timestamp := fetch_timestamp }

/-- The history row `store_auctions` appends for a BIN, unclaimed poll entry. -/
def toHistoryRow (a : AuctionInput) (fetch_timestamp : Int) : HistoryRow :=
  { uuid := a.uuid, item_name := a.item_name, tier := a.tier,
    starting_bid := a.starting_bid, bin := 1, claimed := 0,
    end_time := a.end_time, fetch_timestamp := fetch_timestamp }

/-- The sale row emitted for a vanished previous-snapshot row: price, tier and
first-seen come from the previous record, sold time is the new poll's
timestamp, and last_seen is set equal to first_seen. -/
def toSaleRow (r : AuctionRow) (fetch_timestamp : Int) : SaleRow :=
  { uuid := r.uuid, item_name := r.item_name, tier := r.tier,
    price := r.starting_bid, first_seen := r.fetch_timestamp,
    last_seen := r.fetch_timestamp, sold_timestamp := fetch_timestamp }

/-- `SELECT uuid, ... FROM auctions WHERE bin = 1 AND claimed = 0` read into a
uuid-keyed dict (last row wins on a repeated uuid, as the Python dict
comprehension does). -/
def prevSnapshot (db : AuctionDB) : List AuctionRow :=
  dedupKeepLastBy (fun r => r.uuid)
    (db.auctions.filter (fun r => r.bin == 1 && r.claimed == 0))

/-- `sold_uuids = set(previous_auctions.keys()) - current_uuids`: the previous
BIN-unclaimed rows whose uuid is absent from the new poll. -/
def soldRows (db : AuctionDB) (auctions : List AuctionInput) : List AuctionRow :=
  (prevSnapshot db).filter
    (fun r => !((auctions.map (fun a => a.uuid)).contains r.uuid))

/-- `HypixelAuctionTracker.store_auctions`: diff the poll against the previous
snapshot, record sales for vanished BIN-unclaimed listings, replace the
snapshot wholesale, and append BIN history rows. -/
def store_auctions (db : AuctionDB) (auctions : List AuctionInput)
    (fetch_timestamp : Int) : AuctionDB :=
  let auction_data := auctions.map (fun a => toAuctionRow a fetch_timestamp)
  let history_data :=
    (auctions.filter (fun a => a.bin && !a.claimed)).map
      (fun a => toHistoryRow a fetch_timestamp)
  let sales_data := (soldRows db auctions).map (fun r => toSaleRow r fetch_timestamp)
  { auctions := auction_data.foldl (insertOrReplaceBy (fun r => r.uuid)) []
    history := history_data.foldl
      (insertOrIgnoreBy (fun h => (h.uuid, h.fetch_timestamp))) db.history
    sales := sales_data.foldl (insertOrReplaceBy (fun s => s.uuid)) db.sales }

/-- The dict returned by `get_lowest_bin` (player-name lookup excluded: it is
a network call outside the store). -/
structure LowestBin where
  uuid : String
  item_name : String
  price : Int
  tier : String
  auctioneer : String
deriving DecidableEq

/-- `ORDER BY starting_bid ASC LIMIT 1`: a minimum-price row, first row
winning ties (SQLite leaves the tie order unspecified; the model fixes it). -/
def minByBid : List AuctionRow → Option AuctionRow
  | [] => none
  | r :: rs =>
      match minByBid rs with
      | none => some r
      | some m => if r.starting_bid ≤ m.starting_bid then some r else some m

/-- One `SELECT ... FROM auctions WHERE <p> AND bin = 1 AND claimed = 0 ORDER
BY starting_bid ASC LIMIT 1` query, mapped to the result dict. -/
def ahQuery (db : AuctionDB) (p : AuctionRow → Bool) : Option LowestBin :=
  (minByBid (db.auctions.filter
    (fun r => p r && r.bin == 1 && r.claimed == 0))).map
    (fun r => { uuid := r.uuid, item_name := r.item_name, price := r.starting_bid,
                tier := r.tier, auctioneer := r.auctioneer })

/-- Exact-name lowest-BIN query (`WHERE item_name = ?`). -/
def ahExact (db : AuctionDB) (q : String) : Option LowestBin :=
  ahQuery db (fun r => r.item_name == q)

/-- Case-insensitive lowest-BIN query (`WHERE LOWER(item_name) = LOWER(?)`). -/
def ahCI (db : AuctionDB) (q : String) : Option LowestBin :=
  ahQuery db (fun r => sqlLower r.item_name == sqlLower q)

/-- `HypixelAuctionTracker.get_lowest_bin`: exact match, then the
underscores-to-spaces variant (guarded on containing an underscore and not
carrying the ENCHANTMENT_ sentinel), then the case-insensitive match, then
the case-insensitive variant under the same guard. -/
def get_lowest_bin (db : AuctionDB) (item_name : String) : Option LowestBin :=
  let r1 := ahExact db item_name
  let r2 := match r1 with
    | some v => some v
    | none =>
        if containsChar item_name '_' && !(startsWithStr item_name "ENCHANTMENT_") then
          ahExact db (underscoresToSpaces item_name)
        else none
  let r3 := match r2 with
    | some v => some v
    | none => ahCI db item_name
  match r3 with
  | some v => some v
  | none =>
      if containsChar item_name '_' && !(startsWithStr item_name "ENCHANTMENT_") then
        ahCI db (underscoresToSpaces item_name)
      else none

/-- The statistics dict returned by `get_sales_per_day`. -/
structure SalesStats where
  item_name : String
  total_sales : Nat
  daily_sales : ℚ
  avg_sale_price : ℚ
  min_sale_price : Int
  max_sale_price : Int
  period_days : Nat
deriving DecidableEq

/-- The rows `get_sales_per_day` aggregates: `WHERE item_name = ? AND
sold_timestamp >= now − days·24·60·60·1000` — an exact string match on the
item name, no fallback of any kind. -/
def salesWindow (db : AuctionDB) (now_ms : Int) (item_name : String)
    (days : Nat) : List SaleRow :=
  db.sales.filter
    (fun s => s.item_name == item_name &&
      decide (now_ms - ((days : Int) * 24 * 60 * 60 * 1000) ≤ s.sold_timestamp))

/-- `HypixelAuctionTracker.get_sales_per_day`: count/average/min/max over the
sale rows whose item name equals the query exactly and whose sold timestamp
falls in the trailing window; `None` when the count is zero. -/
def get_sales_per_day (db : AuctionDB) (now_ms : Int) (item_name : String)
    (days : Nat) : Option SalesStats :=
  match salesWindow db now_ms item_name days with
  | [] => none
  | m :: ms =>
      some { item_name := item_name,
             total_sales := ms.length + 1,
             daily_sales := ((ms.length + 1 : Nat) : ℚ) / (days : ℚ),
             avg_sale_price :=
               (((m :: ms).map (fun s => (s.price : ℚ))).sum) / ((ms.length + 1 : Nat) : ℚ),
             min_sale_price := ms.foldl (fun acc s => min acc s.price) m.price,
             max_sale_price := ms.foldl (fun acc s => max acc s.price) m.price,
             period_days := days }

/-- The sale rows currently stored for one listing id. -/
def salesFor (db : AuctionDB) (u : String) : List SaleRow :=
  db.sales.filter (fun s => s.uuid == u)

/-- The `quick_status` block of one product in the upstream bazaar payload
(src/utils/bazzar.py `store_bazaar_data`; absent fields default to 0 via
`.get(..., 0)`). -/
structure QuickStatus where
  sellPrice : ℚ
  sellVolume : Int
  sellMovingWeek : Int
  sellOrders : Int
  buyPrice : ℚ
  buyVolume : Int
  buyMovingWeek : Int
  buyOrders : Int
deriving DecidableEq

/-- One entry of the upstream payload's `products` mapping. -/
structure BazaarProduct where
  product_id : String
  quick_status : QuickStatus
deriving DecidableEq

/-- The upstream bazaar payload: `success` flag (false also stands for a
missing key, which Python reads as falsy), optional `lastUpdated`, and the
product mapping. -/
structure BazaarData where
  success : Bool
  lastUpdated : Option Int
  products : List BazaarProduct
deriving DecidableEq

/-- A row of `bazaar_current` / `bazaar_products` (same columns). -/
structure BazaarRow where
  product_id : String
  sell_price : ℚ
  sell_volume : Int
  sell_moving_week : Int
  sell_orders : Int
  buy_price : ℚ
  buy_volume : Int
  buy_moving_week : Int
  buy_orders : Int
  timestamp : Int
deriving DecidableEq

/-- The two tables of the bazaar tracker's database. -/
structure BazaarDB where
  bazaar_current : List BazaarRow
  bazaar_products : List BazaarRow
deriving DecidableEq

/-- The empty database created by `HypixelBazaarTracker.setup_database`. -/
def initial_bazaar_db : BazaarDB := { bazaar_current := [], bazaar_products := [] }

/-- The row built for one product. -/
def toBazaarRow (p : BazaarProduct) (timestamp : Int) : BazaarRow :=
  { product_id := p.product_id,
    sell_price := p.quick_status.sellPrice,
    sell_volume := p.quick_status.sellVolume,
    sell_moving_week := p.quick_status.sellMovingWeek,
    sell_orders := p.quick_status.sellOrders,
    buy_price := p.quick_status.buyPrice,
    buy_volume := p.quick_status.buyVolume,
    buy_moving_week := p.quick_status.buyMovingWeek,
    buy_orders := p.quick_status.buyOrders,
    timestamp := timestamp }

/-- `HypixelBazaarTracker.store_bazaar_data`: reject a missing payload or one
whose success flag is falsy without touching the database; otherwise replace
`bazaar_current` wholesale and, when history is enabled, append every product
row to `bazaar_products`. -/
def store_bazaar_data (db : BazaarDB) (data : Option BazaarData) (now_ms : Int)
    (store_history : Bool) : BazaarDB :=
  match data with
  | none => db
  | some d =>
      if !d.success then db
      else
        let timestamp := d.lastUpdated.getD now_ms
        let current_data := d.products.map (fun p => toBazaarRow p timestamp)
        let history_data :=
          if store_history then d.products.map (fun p => toBazaarRow p timestamp)
          else []
        { bazaar_current := current_data,
          bazaar_products := db.bazaar_products ++ history_data }

/-- The dict returned by `get_product_info`. -/
structure ProductInfo where
  product_id : String
  sell_price : ℚ
  buy_price : ℚ
  sell_volume : Int
  buy_volume : Int
  sell_orders : Int
  buy_orders : Int
  sell_moving_week : Int
  buy_moving_week : Int
deriving DecidableEq

/-- One `SELECT ... FROM bazaar_current WHERE <p>` fetchone, mapped to the
result dict. -/
def bzQuery (db : BazaarDB) (p : BazaarRow → Bool) : Option ProductInfo :=
  (db.bazaar_current.find? p).map
    (fun r => { product_id := r.product_id, sell_price := r.sell_price,
                buy_price := r.buy_price, sell_volume := r.sell_volume,
                buy_volume := r.buy_volume, sell_orders := r.sell_orders,
                buy_orders := r.buy_orders, sell_moving_week := r.sell_moving_week,
                buy_moving_week := r.buy_moving_week })

/-- Exact-name bazaar query (`WHERE product_id = ?`). -/
def bzExact (db : BazaarDB) (q : String) : Option ProductInfo :=
  bzQuery db (fun r => r.product_id == q)

/-- Case-insensitive bazaar query (`WHERE LOWER(product_id) = LOWER(?)`). -/
def bzCI (db : BazaarDB) (q : String) : Option ProductInfo :=
  bzQuery db (fun r => sqlLower r.product_id == sqlLower q)

/-- `HypixelBazaarTracker.get_product_info`: the same four resolution stages
as `get_lowest_bin`, against the current bazaar snapshot. -/
def get_product_info (db : BazaarDB) (product_id : String) : Option ProductInfo :=
  let r1 := bzExact db product_id
  let r2 := match r1 with
    | some v => some v
    | none =>
        if containsChar product_id '_' && !(startsWithStr product_id "ENCHANTMENT_") then
          bzExact db (underscoresToSpaces product_id)
        else none
  let r3 := match r2 with
    | some v => some v
    | none => bzCI db product_id
  match r3 with
  | some v => some v
  | none =>
      if containsChar product_id '_' && !(startsWithStr product_id "ENCHANTMENT_") then
        bzCI db (underscoresToSpaces product_id)
      else none

/-- The `auction_house` block of a `get_item_value` result. -/
structure AHInfo where
  lowest_bin : Int
  tier : String
  total : Int
deriving DecidableEq

/-- The `bazaar` block of a `get_item_value` result. -/
structure BZInfo where
  insta_sell_price : ℚ
  insta_buy_price : ℚ
  total : ℚ
deriving DecidableEq

/-- The full `get_item_value` result dict
(src/api/chest_calculator.py). -/
structure ItemValue where
  item_name : String
  quantity : Int
  found_in : List String
  auction_house : Option AHInfo
  bazaar : Option BZInfo
  best_price : Option ℚ
  total_value : ℚ
  market : Option String
  sales_per_day : ℚ
deriving DecidableEq

/-- `ChestValueCalculator.get_item_value`: look the item up in both stores,
derive a sales-per-day signal (auction sales first, bazaar moving week as
fallback, −1 as the no-data sentinel), and pick the numerically higher of the
lowest BIN and the bazaar instant-sell price when both markets answer. -/
def get_item_value (adb : AuctionDB) (bdb : BazaarDB) (now_ms : Int)
    (item_name : String) (quantity : Int) : ItemValue :=
  let auction_item := get_lowest_bin adb item_name
  let sales_data := match auction_item with
    | some _ => get_sales_per_day adb now_ms item_name 7
    | none => none
  let spd1 : ℚ := match auction_item, sales_data with
    | some _, some sd => if sd.daily_sales == 0 then -1 else round2 sd.daily_sales
    | _, _ => -1
  let ah : Option AHInfo := match auction_item with
    | some ai => some { lowest_bin := ai.price, tier := ai.tier,
                        total := ai.price * quantity }
    | none => none
  let bazaar_item := get_product_info bdb item_name
  let bz : Option BZInfo := match bazaar_item with
    | some bi => some { insta_sell_price := bi.buy_price,
                        insta_buy_price := bi.sell_price,
                        total := bi.buy_price * (quantity : ℚ) }
    | none => none
  let spd2 : ℚ := match bazaar_item with
    | some bi =>
        if spd1 == -1 && !(bi.buy_moving_week == 0) then
          round2 ((bi.buy_moving_week : ℚ) / 7)
        else spd1
    | none => spd1
  let btm : Option ℚ × ℚ × Option String :=
    match ah, bz with
    | some a, some b =>
        let ah_price : ℚ := (a.lowest_bin : ℚ)
        let bz_price : ℚ := b.insta_sell_price
        if ah_price ≥ bz_price then
          (some ah_price, ah_price * (quantity : ℚ), some "auction_house")
        else
          (some bz_price, bz_price * (quantity : ℚ), some "bazaar")
    | some a, none =>
        (some (a.lowest_bin : ℚ), (a.lowest_bin : ℚ) * (quantity : ℚ),
         some "auction_house")
    | none, some b =>
        (some b.insta_sell_price, b.insta_sell_price * (quantity : ℚ),
         some "bazaar")
    | none, none => (none, 0, none)
  { item_name := item_name, quantity := quantity,
    found_in :=
      (match auction_item with | some _ => ["auction_house"] | none => []) ++
      (match bazaar_item with | some _ => ["bazaar"] | none => []),
    auction_house := ah, bazaar := bz,
    best_price := btm.1, total_value := btm.2.1, market := btm.2.2,
    sales_per_day := spd2 }

/-- One entry of the item list handed to `calculate_chest_value`
(`item.get("name", "")`, `item.get("quantity", 1)` with the defaults already
applied). -/
structure ChestItem where
  name : String
  quantity : Int
deriving DecidableEq

/-- The `summary` block of a `calculate_chest_value` result; `none` on
`is_profitable` / `roi_percent` stands for the key being absent when no chest
cost was supplied. -/
structure ChestSummary where
  total_items : Nat
  items_found : Nat
  items_not_found : Nat
  total_value : ℚ
  chest_cost : Option ℚ
  profit : Option ℚ
  is_profitable : Option Bool
  roi_percent : Option ℚ
deriving DecidableEq

/-- A `calculate_chest_value` result (the last-updated metadata block is
observability-only and not modelled). -/
structure ChestResult where
  items : List ItemValue
  summary : ChestSummary
deriving DecidableEq

/-- The per-item loop of `calculate_chest_value`: skip empty names, value the
rest, and accumulate the found / not-found counters and the value total. -/
def chest_loop (adb : AuctionDB) (bdb : BazaarDB) (now_ms : Int) :
    List ChestItem → List ItemValue × Nat × Nat × ℚ
  | [] => ([], 0, 0, 0)
  | it :: rest =>
      if it.name == "" then chest_loop adb bdb now_ms rest
      else
        let iv := get_item_value adb bdb now_ms it.name it.quantity
        let t := chest_loop adb bdb now_ms rest
        match iv.best_price with
        | some _ => (iv :: t.1, t.2.1 + 1, t.2.2.1, t.2.2.2 + iv.total_value)
        | none => (iv :: t.1, t.2.1, t.2.2.1 + 1, t.2.2.2)

/-- `ChestValueCalculator.calculate_chest_value`: value every named item, sum
the found ones, and when a chest cost is supplied add profit, a
profitability flag, and a zero-guarded ROI percentage. -/
def calculate_chest_value (adb : AuctionDB) (bdb : BazaarDB) (now_ms : Int)
    (items : List ChestItem) (chest_cost : Option ℚ) : ChestResult :=
  let t := chest_loop adb bdb now_ms items
  match chest_cost with
  | none =>
      { items := t.1,
        summary := { total_items := items.length, items_found := t.2.1,
                     items_not_found := t.2.2.1, total_value := t.2.2.2,
                     chest_cost := none, profit := none,
                     is_profitable := none, roi_percent := none } }
  | some c =>
      let profit := t.2.2.2 - c
      { items := t.1,
        summary := { total_items := items.length, items_found := t.2.1,
                     items_not_found := t.2.2.1, total_value := t.2.2.2,
                     chest_cost := some c, profit := some profit,
                     is_profitable := some (decide (0 < profit)),
                     roi_percent := some (if 0 < c then profit / c * 100 else 0) } }

/-! ### Helper lemmas about the keyed-table primitives -/

lemma mem_insertOrReplaceBy {α κ : Type} [BEq κ] {key : α → κ} {xs : List α}
    {x y : α} (h : y ∈ insertOrReplaceBy key xs x) : y ∈ xs ∨ y = x := by
  rcases List.mem_append.mp h with h1 | h1
  · exact Or.inl (List.mem_of_mem_filter h1)
  · exact Or.inr (List.mem_singleton.mp h1)

lemma mem_foldl_insertOrReplaceBy {α κ : Type} [BEq κ] {key : α → κ}
    {data : List α} {t : List α} {y : α}
    (h : y ∈ data.foldl (insertOrReplaceBy key) t) : y ∈ t ∨ y ∈ data := by
  induction data generalizing t with
  | nil => exact Or.inl h
  | cons d ds ih =>
      rcases ih h with h1 | h1
      · rcases mem_insertOrReplaceBy h1 with h2 | h2
        · exact Or.inl h2
        · exact Or.inr (by simp [h2])
      · exact Or.inr (List.mem_cons_of_mem _ h1)

lemma filter_insertOrReplaceBy_self {α κ : Type} [BEq κ] [LawfulBEq κ]
    {key : α → κ} (xs : List α) (x : α) :
    (insertOrReplaceBy key xs x).filter (fun y => key y == key x) = [x] := by
  unfold insertOrReplaceBy
  rw [List.filter_append]
  have h1 : (xs.filter (fun y => !(key y == key x))).filter
      (fun y => key y == key x) = [] := by
    apply List.filter_eq_nil_iff.mpr
    intro a ha
    have := List.of_mem_filter ha
    simp at this
    simp [this]
  rw [h1]
  simp

lemma filter_insertOrReplaceBy_ne {α κ : Type} [BEq κ] [LawfulBEq κ]
    {key : α → κ} {k : κ} (xs : List α) (x : α) (h : ¬ key x = k) :
    (insertOrReplaceBy key xs x).filter (fun y => key y == k)
      = xs.filter (fun y => key y == k) := by
  unfold insertOrReplaceBy
  rw [List.filter_append]
  have h2 : ([x].filter (fun y => key y == k)) = [] := by
    simp [h]
  rw [h2, List.append_nil, List.filter_filter]
  apply List.filter_congr
  intro y _
  by_cases hyk : key y = k
  · have hyx : ¬ key y = key x := fun hh => h (hh ▸ hyk)
    simp only [hyk, beq_iff_eq]
    simp only [beq_iff_eq] at hyx
    have hkx : ¬ k = key x := fun hh => h hh.symm
    simp [hkx]
  · simp [hyk]

lemma filter_foldl_insertOrReplaceBy_not_mem {α κ : Type} [BEq κ] [LawfulBEq κ]
    {key : α → κ} {k : κ} {data : List α} {t : List α}
    (h : ∀ x ∈ data, ¬ key x = k) :
    (data.foldl (insertOrReplaceBy key) t).filter (fun y => key y == k)
      = t.filter (fun y => key y == k) := by
  induction data generalizing t with
  | nil => rfl
  | cons d ds ih =>
      rw [List.foldl_cons, ih (fun x hx => h x (List.mem_cons_of_mem _ hx)),
        filter_insertOrReplaceBy_ne t d (h d (List.mem_cons_self _ _))]

lemma filter_foldl_insertOrReplaceBy_mem {α κ : Type} [BEq κ] [LawfulBEq κ]
    {key : α → κ} {data : List α} {x : α}
    (hx : x ∈ data) (hnd : (data.map key).Nodup) (t : List α) :
    (data.foldl (insertOrReplaceBy key) t).filter (fun y => key y == key x)
      = [x] := by
  induction data generalizing t with
  | nil => cases hx
  | cons d ds ih =>
      have hnd2 := List.nodup_cons.mp hnd
      rcases List.mem_cons.mp hx with rfl | hx2
      · have hds : ∀ y ∈ ds, ¬ key y = key x := by
          intro y hy hkey
          exact hnd2.1 (hkey ▸ List.mem_map_of_mem key hy)
        rw [List.foldl_cons, filter_foldl_insertOrReplaceBy_not_mem hds,
          filter_insertOrReplaceBy_self t x]
      · rw [List.foldl_cons]
        exact ih hx2 hnd2.2 _

lemma keysNodup_filter {α κ : Type} (key : α → κ) (p : α → Bool) {xs : List α}
    (h : (xs.map key).Nodup) : ((xs.filter p).map key).Nodup :=
  ((List.filter_sublist xs).map key).nodup h

lemma keysNodup_insertOrReplaceBy {α κ : Type} [BEq κ] [LawfulBEq κ]
    {key : α → κ} {xs : List α} (x : α) (h : (xs.map key).Nodup) :
    ((insertOrReplaceBy key xs x).map key).Nodup := by
  unfold insertOrReplaceBy
  rw [List.map_append]
  refine List.Nodup.append (keysNodup_filter key _ h) (List.nodup_singleton _) ?_
  intro a ha hb
  rcases List.mem_map.mp ha with ⟨y, hy, rfl⟩
  have := List.of_mem_filter hy
  simp at this
  simp at hb
  exact this hb

lemma keysNodup_foldl_insertOrReplaceBy {α κ : Type} [BEq κ] [LawfulBEq κ]
    {key : α → κ} (data : List α) {t : List α} (h : (t.map key).Nodup) :
    ((data.foldl (insertOrReplaceBy key) t).map key).Nodup := by
  induction data generalizing t with
  | nil => exact h
  | cons d ds ih => exact ih (keysNodup_insertOrReplaceBy d h)

lemma mem_dedupKeepLastBy {α κ : Type} [BEq κ] {key : α → κ} {xs : List α}
    {y : α} (h : y ∈ dedupKeepLastBy key xs) : y ∈ xs := by
  induction xs with
  | nil => cases h
  | cons x xs ih =>
      unfold dedupKeepLastBy at h
      by_cases hc : xs.any (fun z => key z == key x) = true
      · rw [if_pos hc] at h
        exact List.mem_cons_of_mem _ (ih h)
      · rw [if_neg hc] at h
        rcases List.mem_cons.mp h with rfl | h2
        · exact List.mem_cons_self _ _
        · exact List.mem_cons_of_mem _ (ih h2)

lemma dedupKeepLastBy_eq_self {α κ : Type} [BEq κ] [LawfulBEq κ]
    {key : α → κ} {xs : List α} (h : (xs.map key).Nodup) :
    dedupKeepLastBy key xs = xs := by
  induction xs with
  | nil => rfl
  | cons x xs ih =>
      have h2 := List.nodup_cons.mp h
      have hany : xs.any (fun z => key z == key x) = false := by
        apply List.any_eq_false.mpr
        intro z hz
        simp only [beq_iff_eq]
        intro hkey
        exact h2.1 (hkey ▸ List.mem_map_of_mem key hz)
      unfold dedupKeepLastBy
      rw [hany]
      simp [ih h2.2]

lemma keysNodup_dedupKeepLastBy_aux {α κ : Type} [BEq κ] [LawfulBEq κ]
    (key : α → κ) (xs : List α) :
    ((dedupKeepLastBy key xs).map key).Nodup := by
  induction xs with
  | nil => exact List.nodup_nil
  | cons x xs ih =>
      unfold dedupKeepLastBy
      by_cases hc : xs.any (fun z => key z == key x) = true
      · rw [if_pos hc]
        exact ih
      · rw [if_neg hc]
        rw [List.map_cons, List.nodup_cons]
        refine ⟨?_, ih⟩
        intro hmem
        rcases List.mem_map.mp hmem with ⟨y, hy, hkey⟩
        have hyxs := mem_dedupKeepLastBy hy
        have : xs.any (fun z => key z == key x) = true :=
          List.any_eq_true.mpr ⟨y, hyxs, by simp [hkey]⟩
        exact hc this

/-! ### Helper lemmas about `store_auctions` -/

lemma store_auctions_sales_eq (db : AuctionDB) (poll : List AuctionInput) (t : Int) :
    (store_auctions db poll t).sales =
      ((soldRows db poll).map (fun r => toSaleRow r t)).foldl
        (insertOrReplaceBy (fun s => s.uuid)) db.sales := rfl

lemma mem_soldRows_not_in_poll {db : AuctionDB} {poll : List AuctionInput}
    {r : AuctionRow} (h : r ∈ soldRows db poll) :
    ¬ r.uuid ∈ poll.map (fun a => a.uuid) := by
  have h2 := List.of_mem_filter h
  simp only [Bool.not_eq_true'] at h2
  intro hmem
  have : (poll.map (fun a => a.uuid)).contains r.uuid = true := by
    simpa [List.contains] using hmem
  rw [this] at h2
  cases h2

/-- The uuids appearing in the emitted sale rows are pairwise distinct. -/
lemma keysNodup_sales_data (db : AuctionDB) (poll : List AuctionInput) (t : Int) :
    (((soldRows db poll).map (fun r => toSaleRow r t)).map
      (fun s => s.uuid)).Nodup := by
  have h1 : ((soldRows db poll).map (fun r => toSaleRow r t)).map (fun s => s.uuid)
      = (soldRows db poll).map (fun r => r.uuid) := by
    rw [List.map_map]
    rfl
  rw [h1]
  have h2 : ((prevSnapshot db).map (fun r => r.uuid)).Nodup :=
    keysNodup_dedupKeepLastBy_aux _ _
  unfold soldRows
  exact keysNodup_filter (fun r : AuctionRow => r.uuid) _ h2

/-- A row of the previous snapshot that is BIN, unclaimed, and absent from
the new poll lands in `soldRows`; the uuid-nodup hypothesis mirrors the
table's PRIMARY KEY. -/
lemma mem_soldRows_of_vanished {db : AuctionDB} {poll : List AuctionInput}
    {r : AuctionRow} (hnod : (db.auctions.map (fun x => x.uuid)).Nodup)
    (hr : r ∈ db.auctions) (hbin : r.bin = 1) (hcl : r.claimed = 0)
    (habs : ¬ r.uuid ∈ poll.map (fun a => a.uuid)) :
    r ∈ soldRows db poll := by
  have hfil : r ∈ db.auctions.filter (fun x => x.bin == 1 && x.claimed == 0) :=
    List.mem_filter.mpr ⟨hr, by simp [hbin, hcl]⟩
  have hnodf := keysNodup_filter (fun x : AuctionRow => x.uuid)
    (fun x => x.bin == 1 && x.claimed == 0) hnod
  have hprev : prevSnapshot db
      = db.auctions.filter (fun x => x.bin == 1 && x.claimed == 0) :=
    dedupKeepLastBy_eq_self hnodf
  unfold soldRows
  rw [hprev]
  refine List.mem_filter.mpr ⟨hfil, ?_⟩
  simp
  intro x hx hxe
  exact habs (hxe ▸ List.mem_map_of_mem (fun a => a.uuid) hx)

/-- Sale detection, per listing id: a BIN, unclaimed row of the previous
snapshot whose uuid is absent from the poll ends up with exactly the one
sale row built from the previous record and the new poll timestamp. -/
lemma salesFor_store_of_sold {db : AuctionDB} {poll : List AuctionInput}
    {t : Int} {r : AuctionRow}
    (hnod : (db.auctions.map (fun x => x.uuid)).Nodup)
    (hr : r ∈ db.auctions) (hbin : r.bin = 1) (hcl : r.claimed = 0)
    (habs : ¬ r.uuid ∈ poll.map (fun a => a.uuid)) :
    salesFor (store_auctions db poll t) r.uuid = [toSaleRow r t] := by
  have hsold : r ∈ soldRows db poll :=
    mem_soldRows_of_vanished hnod hr hbin hcl habs
  have hx : toSaleRow r t ∈ (soldRows db poll).map (fun x => toSaleRow x t) :=
    List.mem_map_of_mem _ hsold
  have hnd := keysNodup_sales_data db poll t
  unfold salesFor
  rw [store_auctions_sales_eq]
  exact filter_foldl_insertOrReplaceBy_mem hx hnd db.sales

/-- A listing id present in the new poll has its sale rows untouched by the
ingest: no sale event is produced (or modified) for it. -/
lemma salesFor_store_of_present {db : AuctionDB} {poll : List AuctionInput}
    {t : Int} {u : String} (hu : u ∈ poll.map (fun a => a.uuid)) :
    salesFor (store_auctions db poll t) u = salesFor db u := by
  unfold salesFor
  rw [store_auctions_sales_eq]
  apply filter_foldl_insertOrReplaceBy_not_mem
  intro x hx
  rcases List.mem_map.mp hx with ⟨s, hs, rfl⟩
  intro hkey
  apply mem_soldRows_not_in_poll hs
  have hk2 : s.uuid = u := hkey
  rw [hk2]
  exact hu

/-- Ingest preserves uuid-uniqueness of the sale-event table. -/
lemma keysNodup_store_sales (db : AuctionDB) (poll : List AuctionInput) (t : Int)
    (h : (db.sales.map (fun s => s.uuid)).Nodup) :
    ((store_auctions db poll t).sales.map (fun s => s.uuid)).Nodup := by
  rw [store_auctions_sales_eq]
  exact keysNodup_foldl_insertOrReplaceBy _ h

/-- Every row of the rebuilt snapshot comes from the new poll. -/
lemma mem_store_auctions_auctions {db : AuctionDB} {poll : List AuctionInput}
    {t : Int} {r : AuctionRow} (h : r ∈ (store_auctions db poll t).auctions) :
    ∃ a ∈ poll, r = toAuctionRow a t := by
  have h2 : r ∈ (poll.map (fun a => toAuctionRow a t)).foldl
      (insertOrReplaceBy (fun x => x.uuid)) [] := h
  rcases mem_foldl_insertOrReplaceBy h2 with h3 | h3
  · cases h3
  · rcases List.mem_map.mp h3 with ⟨a, ha, rfl⟩
    exact ⟨a, ha, rfl⟩

/-! ### Claim C1 -/

/-- Claim C1: on each ingest, every listing id that was in the prior current
snapshot with bin = 1 and claimed = 0 and is absent from the new poll's id
set ends up with exactly one sale row, whose price is the prior record's
starting bid, whose first-seen (and last-seen) is the prior record's fetch
timestamp, and whose sold timestamp is the new poll's fetch timestamp; a
listing id still present in the new poll gets no sale event (its sale rows
are untouched). -/
theorem store_auctions_sale_detection
    (db : AuctionDB) (poll : List AuctionInput) (t : Int)
    (hnod : (db.auctions.map (fun x => x.uuid)).Nodup) :
    (∀ r ∈ db.auctions, r.bin = 1 → r.claimed = 0 →
      ¬ r.uuid ∈ poll.map (fun a => a.uuid) →
      salesFor (store_auctions db poll t) r.uuid =
        [{ uuid := r.uuid, item_name := r.item_name, tier := r.tier,
           price := r.starting_bid, first_seen := r.fetch_timestamp,
           last_seen := r.fetch_timestamp, sold_timestamp := t }]) ∧
    (∀ u ∈ poll.map (fun a => a.uuid),
      salesFor (store_auctions db poll t) u = salesFor db u) := by
  constructor
  · intro r hr hbin hcl habs
    exact salesFor_store_of_sold hnod hr hbin hcl habs
  · intro u hu
    exact salesFor_store_of_present hu

/-- A concrete BIN, unclaimed snapshot row used by witnesses. -/
def exRow1 : AuctionRow :=
  { uuid := "u1", auctioneer := "a", profile_id := "p", item_name := "Foo",
    tier := "RARE", category := "misc", starting_bid := 7,
    highest_bid_amount := 0, bin := 1, start_time := 0, end_time := 9,
    last_updated := 0, claimed := 0, fetch_timestamp := 1 }

/-- A concrete store whose snapshot holds just `exRow1`. -/
def exDb1 : AuctionDB := { auctions := [exRow1], history := [], sales := [] }

/-- A concrete poll naming a different listing id than `exRow1`. -/
def exPoll1 : List AuctionInput :=
  [{ uuid := "u2", auctioneer := "b", profile_id := "q", item_name := "Bar",
     tier := "RARE", category := "misc", starting_bid := 3,
     highest_bid_amount := 0, bin := true, start := 0, end_time := 9,
     last_updated := 0, claimed := false }]

/-- Witness for C1 on a concrete store: one BIN, unclaimed listing vanishes
against a poll that does not name it and yields exactly its one sale row. -/
theorem store_auctions_sale_detection_witness :
    salesFor (store_auctions exDb1 exPoll1 5) "u1" =
      [{ uuid := "u1", item_name := "Foo", tier := "RARE", price := 7,
         first_seen := 1, last_seen := 1, sold_timestamp := 5 }] := by
  have h := (store_auctions_sale_detection exDb1 exPoll1 5 (by decide)).1
    exRow1 (by decide) (by decide) (by decide) (by decide)
  exact h

/-! ### Claim C2 -/

/-- Claim C2: the sale-event table keeps at most one row per listing id
(uuid-nodup is preserved by every ingest), and re-detecting a vanished id
overwrites rather than appends: after the ingest the id has exactly one sale
row and its sold timestamp is the latest detection's poll timestamp, no
matter what sale row (if any) the id had before. -/
theorem auction_sales_unique_per_uuid
    (db : AuctionDB) (poll : List AuctionInput) (t : Int)
    (hnodS : (db.sales.map (fun s => s.uuid)).Nodup)
    (hnod : (db.auctions.map (fun x => x.uuid)).Nodup) :
    (((store_auctions db poll t).sales.map (fun s => s.uuid)).Nodup) ∧
    (∀ r ∈ db.auctions, r.bin = 1 → r.claimed = 0 →
      ¬ r.uuid ∈ poll.map (fun a => a.uuid) →
      (salesFor (store_auctions db poll t) r.uuid).length = 1 ∧
      ∀ s ∈ salesFor (store_auctions db poll t) r.uuid,
        s.sold_timestamp = t) := by
  refine ⟨keysNodup_store_sales db poll t hnodS, ?_⟩
  intro r hr hbin hcl habs
  have h := @salesFor_store_of_sold db poll t r hnod hr hbin hcl habs
  rw [h]
  refine ⟨rfl, ?_⟩
  intro s hs
  rw [List.mem_singleton.mp hs]
  rfl

/-- A concrete store that already holds a sale row for "u1" from an earlier
detection, while "u1" is (again) live in the snapshot. -/
def exDb2 : AuctionDB :=
  { auctions := [exRow1], history := [],
    sales := [{ uuid := "u1", item_name := "Foo", tier := "RARE", price := 7,
                first_seen := 1, last_seen := 1, sold_timestamp := 2 }] }

/-- Witness for C2: re-detecting the vanished id "u1" against a store that
already holds a sale row for it leaves exactly one sale row. -/
theorem auction_sales_unique_per_uuid_witness :
    (salesFor (store_auctions exDb2 [] 5) "u1").length = 1 := by
  have h := auction_sales_unique_per_uuid exDb2 [] 5 (by decide) (by decide)
  exact (h.2 exRow1 (by decide) (by decide) (by decide) (by decide)).1

/-! ### Claim C8 -/

/-- Claim C8: ingesting the identical listing list twice in a row produces
zero new sale events (the sale table of the second ingest is exactly that of
the first, for any second-poll timestamp) and leaves the current snapshot
unchanged (the second ingest rebuilds the very same snapshot). -/
theorem store_auctions_repoll_no_new_sales
    (db : AuctionDB) (poll : List AuctionInput) (t t2 : Int) :
    (store_auctions (store_auctions db poll t) poll t2).sales =
      (store_auctions db poll t).sales ∧
    (store_auctions (store_auctions db poll t) poll t).auctions =
      (store_auctions db poll t).auctions := by
  constructor
  · rw [store_auctions_sales_eq]
    have hsold : soldRows (store_auctions db poll t) poll = [] := by
      apply List.filter_eq_nil_iff.mpr
      intro r hrprev
      have hr : r ∈ (store_auctions db poll t).auctions :=
        List.mem_of_mem_filter (mem_dedupKeepLastBy hrprev)
      rcases mem_store_auctions_auctions hr with ⟨a, ha, rfl⟩
      simp
      exact ⟨a, ha, rfl⟩
    rw [hsold]
    rfl
  · rfl

/-! ### Claim C3 -/

/-- A concrete store with one BIN, unclaimed listing, used to show that an
empty poll is not rejected by `store_auctions`. -/
def exDb3 : AuctionDB := { auctions := [exRow1], history := [], sales := [] }

/-- Counterexample to C3: `store_auctions` called with an empty listing list
does NOT leave the store unchanged — the current snapshot is wiped and a
sale event is recorded for the previously present BIN, unclaimed listing. -/
theorem empty_poll_mutates_state :
    (store_auctions exDb3 [] 5).auctions = [] ∧
    exDb3.auctions ≠ [] ∧
    (store_auctions exDb3 [] 5).sales =
      [{ uuid := "u1", item_name := "Foo", tier := "RARE", price := 7,
         first_seen := 1, last_seen := 1, sold_timestamp := 5 }] ∧
    exDb3.sales = [] := by
  refine ⟨rfl, by decide, by decide, rfl⟩

/-- Claim C3 as amended: the bazaar store does reject a missing payload or
one whose success flag is falsy without mutating any table, but the listing
store does not reject an empty poll — `store_auctions []` runs a normal
ingest whose snapshot rebuild is empty and which emits a sale event for
every previously present BIN, unclaimed listing. -/
theorem ingest_rejection_amended :
    (∀ (db : BazaarDB) (now_ms : Int) (sh : Bool),
      store_bazaar_data db none now_ms sh = db) ∧
    (∀ (db : BazaarDB) (d : BazaarData) (now_ms : Int) (sh : Bool),
      d.success = false → store_bazaar_data db (some d) now_ms sh = db) ∧
    (∀ (adb : AuctionDB) (t : Int), (store_auctions adb [] t).auctions = []) ∧
    (∀ (adb : AuctionDB) (t : Int),
      (adb.auctions.map (fun x => x.uuid)).Nodup →
      ∀ r ∈ adb.auctions, r.bin = 1 → r.claimed = 0 →
        salesFor (store_auctions adb [] t) r.uuid = [toSaleRow r t]) := by
  refine ⟨fun db now_ms sh => rfl, ?_, fun adb t => rfl, ?_⟩
  · intro db d now_ms sh hs
    simp [store_bazaar_data, hs]
  · intro adb t hnod r hr hbin hcl
    exact salesFor_store_of_sold hnod hr hbin hcl (by simp)

/-- Witness for the amended C3: the success-flag rejection and the
empty-poll sale emission, both at concrete inputs. -/
theorem ingest_rejection_amended_witness :
    store_bazaar_data initial_bazaar_db
      (some { success := false, lastUpdated := none, products := [] }) 3 true =
      initial_bazaar_db ∧
    salesFor (store_auctions exDb3 [] 5) "u1" =
      [{ uuid := "u1", item_name := "Foo", tier := "RARE", price := 7,
         first_seen := 1, last_seen := 1, sold_timestamp := 5 }] := by
  constructor
  · exact ingest_rejection_amended.2.1 initial_bazaar_db
      { success := false, lastUpdated := none, products := [] } 3 true rfl
  · exact ingest_rejection_amended.2.2.2 exDb3 5 (by decide) exRow1
      (by decide) (by decide) (by decide)

/-! ### Claim C4 -/

/-- Modelled from the spec's words (§4.1 Name Resolver): try, first hit
winning, (1) exact match, (2) the underscore-to-space variant when the name
contains an underscore and does not start with the enchantment sentinel,
(3) case-insensitive exact match, (4) the case-insensitive variant under the
same sentinel restriction; `none` when all four fail. -/
def spec_resolution {α : Type} (exactL ciL : String → Option α) (q : String) :
    Option α :=
  match exactL q with
  | some v => some v
  | none =>
      match (if containsChar q '_' && !(startsWithStr q "ENCHANTMENT_") then
              exactL (underscoresToSpaces q)
            else none) with
      | some v => some v
      | none =>
          match ciL q with
          | some v => some v
          | none =>
              if containsChar q '_' && !(startsWithStr q "ENCHANTMENT_") then
                ciL (underscoresToSpaces q)
              else none

/-- Claim C4: both lookups follow the spec's four-stage resolution order
(exact, guarded space variant, case-insensitive, guarded case-insensitive
space variant; first hit wins; `none` when all fail), and a name starting
with "ENCHANTMENT_" never has its underscores converted: for such names the
result is the exact match, or else the case-insensitive match. -/
theorem name_resolution_order (adb : AuctionDB) (bdb : BazaarDB) (q : String) :
    get_lowest_bin adb q = spec_resolution (ahExact adb) (ahCI adb) q ∧
    get_product_info bdb q = spec_resolution (bzExact bdb) (bzCI bdb) q ∧
    (startsWithStr q "ENCHANTMENT_" = true →
      get_lowest_bin adb q =
        (match ahExact adb q with
         | some v => some v
         | none => ahCI adb q) ∧
      get_product_info bdb q =
        (match bzExact bdb q with
         | some v => some v
         | none => bzCI bdb q)) := by
  refine ⟨?_, ?_, ?_⟩
  · unfold get_lowest_bin spec_resolution
    cases h1 : ahExact adb q <;>
      cases h2 : ahExact adb (underscoresToSpaces q) <;>
        cases h3 : ahCI adb q <;>
          cases h4 : ahCI adb (underscoresToSpaces q) <;>
            by_cases hc : (containsChar q '_' &&
                !(startsWithStr q "ENCHANTMENT_")) = true <;>
              simp [h1, h2, h3, h4, hc]
  · unfold get_product_info spec_resolution
    cases h1 : bzExact bdb q <;>
      cases h2 : bzExact bdb (underscoresToSpaces q) <;>
        cases h3 : bzCI bdb q <;>
          cases h4 : bzCI bdb (underscoresToSpaces q) <;>
            by_cases hc : (containsChar q '_' &&
                !(startsWithStr q "ENCHANTMENT_")) = true <;>
              simp [h1, h2, h3, h4, hc]
  intro hq
  have hc : (containsChar q '_' && !(startsWithStr q "ENCHANTMENT_")) = false := by
    rw [hq, Bool.not_true, Bool.and_false]
  constructor
  · unfold get_lowest_bin
    cases h1 : ahExact adb q <;> cases h3 : ahCI adb q <;> simp [h1, h3, hc]
  · unfold get_product_info
    cases h1 : bzExact bdb q <;> cases h3 : bzCI bdb q <;> simp [h1, h3, hc]

/-- A concrete snapshot for the C4 witness: the canonical key is stored with
spaces, so an "ENCHANTMENT_"-prefixed query must not resolve (the space
conversion that would match is forbidden by the sentinel). -/
def exDb4 : AuctionDB :=
  { auctions := [{ uuid := "e1", auctioneer := "a", profile_id := "p",
                   item_name := "enchantment a b", tier := "RARE",
                   category := "misc", starting_bid := 4,
                   highest_bid_amount := 0, bin := 1, start_time := 0,
                   end_time := 9, last_updated := 0, claimed := 0,
                   fetch_timestamp := 1 }],
    history := [], sales := [] }

/-- Witness for C4: the sentinel-prefixed query "ENCHANTMENT_A_B" does not
resolve against the stored "enchantment a b" even though the space variant
would match. -/
theorem name_resolution_order_witness :
    get_lowest_bin exDb4 "ENCHANTMENT_A_B" = none := by
  have h := (name_resolution_order exDb4 initial_bazaar_db
    "ENCHANTMENT_A_B").2.2 (by decide)
  rw [h.1]
  decide

/-! ### Shared characterization of the per-item chest loop -/

/-- The chest loop's counters and running total, characterized: not-found
counts the named items whose best price is absent, found counts the rest,
and the total is the sum of `total_value` over the found items. -/
lemma chest_loop_counts (adb : AuctionDB) (bdb : BazaarDB) (now_ms : Int)
    (items : List ChestItem) :
    (chest_loop adb bdb now_ms items).2.2.1 =
      items.countP (fun it => !(it.name == "") &&
        decide ((get_item_value adb bdb now_ms it.name it.quantity).best_price
          = none)) ∧
    (chest_loop adb bdb now_ms items).2.1 =
      items.countP (fun it => !(it.name == "") &&
        !decide ((get_item_value adb bdb now_ms it.name it.quantity).best_price
          = none)) ∧
    (chest_loop adb bdb now_ms items).2.2.2 =
      (((items.filter (fun it => !(it.name == ""))).map
        (fun it => get_item_value adb bdb now_ms it.name it.quantity)).filterMap
        (fun iv => iv.best_price.map (fun _ => iv.total_value))).sum := by
  induction items with
  | nil => refine ⟨rfl, rfl, rfl⟩
  | cons it rest ih =>
      by_cases hn : (it.name == "") = true
      · unfold chest_loop
        rw [if_pos hn]
        simpa [List.countP_cons, List.filter_cons, hn] using ih
      · have hn2 : (it.name == "") = false := by
          rw [Bool.eq_false_iff]
          exact hn
        unfold chest_loop
        rw [if_neg hn]
        cases hbp : (get_item_value adb bdb now_ms it.name it.quantity).best_price
        · simp [List.countP_cons, List.filter_cons, hn2, hbp, ih.1, ih.2.1,
            ih.2.2, List.filterMap_cons]
        · simp [List.countP_cons, List.filter_cons, hn2, hbp, ih.1, ih.2.1,
            ih.2.2, List.filterMap_cons]
          ring_nf

/-! ### Claim C5 -/

/-- Claim C5: when an item is found in both markets, `get_item_value`
reports as best price the numerically higher of the lowest BIN and the
bazaar instant-sell price, names the winning market, and sets
`total_value = best_price × quantity`; with exactly one market, that
market's price is authoritative; with neither, best price is absent, total
value is 0, and the aggregate's not-found counter counts exactly such
items. -/
theorem best_price_rule (adb : AuctionDB) (bdb : BazaarDB) (now_ms : Int)
    (q : String) (n : Int) :
    (∀ a b, get_lowest_bin adb q = some a → get_product_info bdb q = some b →
      (get_item_value adb bdb now_ms q n).best_price =
        some (max (a.price : ℚ) b.buy_price) ∧
      (get_item_value adb bdb now_ms q n).total_value =
        max (a.price : ℚ) b.buy_price * (n : ℚ) ∧
      (get_item_value adb bdb now_ms q n).market =
        some (if (a.price : ℚ) ≥ b.buy_price then "auction_house" else "bazaar")) ∧
    (∀ a, get_lowest_bin adb q = some a → get_product_info bdb q = none →
      (get_item_value adb bdb now_ms q n).best_price = some (a.price : ℚ) ∧
      (get_item_value adb bdb now_ms q n).total_value = (a.price : ℚ) * (n : ℚ) ∧
      (get_item_value adb bdb now_ms q n).market = some "auction_house") ∧
    (∀ b, get_lowest_bin adb q = none → get_product_info bdb q = some b →
      (get_item_value adb bdb now_ms q n).best_price = some b.buy_price ∧
      (get_item_value adb bdb now_ms q n).total_value = b.buy_price * (n : ℚ) ∧
      (get_item_value adb bdb now_ms q n).market = some "bazaar") ∧
    (get_lowest_bin adb q = none → get_product_info bdb q = none →
      (get_item_value adb bdb now_ms q n).best_price = none ∧
      (get_item_value adb bdb now_ms q n).total_value = 0 ∧
      (get_item_value adb bdb now_ms q n).market = none) ∧
    (∀ (items : List ChestItem) (cost : Option ℚ),
      (calculate_chest_value adb bdb now_ms items cost).summary.items_not_found =
        items.countP (fun it => !(it.name == "") &&
          decide ((get_item_value adb bdb now_ms it.name it.quantity).best_price
            = none))) := by
  refine ⟨?_, ?_, ?_, ?_, ?_⟩
  · intro a b ha hb
    by_cases hge : (a.price : ℚ) ≥ b.buy_price
    · have hmax : max (a.price : ℚ) b.buy_price = (a.price : ℚ) :=
        max_eq_left hge
      simp [get_item_value, ha, hb, hge, hmax]
    · have hlt : (a.price : ℚ) < b.buy_price := lt_of_not_ge hge
      have hmax : max (a.price : ℚ) b.buy_price = b.buy_price :=
        max_eq_right (le_of_lt hlt)
      simp [get_item_value, ha, hb, hge, hmax]
  · intro a ha hb
    simp [get_item_value, ha, hb]
  · intro b ha hb
    simp [get_item_value, ha, hb]
  · intro ha hb
    simp [get_item_value, ha, hb]
  · intro items cost
    cases cost
    · exact (chest_loop_counts adb bdb now_ms items).1
    · exact (chest_loop_counts adb bdb now_ms items).1

/-- Concrete snapshot for the C5/C9 witnesses: "Gem" listed at 100 on the
board; variants of the bazaar give instant-sell 150 (C5) or 100 (C9). -/
def c5_adb : AuctionDB :=
  { auctions := [{ uuid := "g1", auctioneer := "a", profile_id := "p",
                   item_name := "Gem", tier := "RARE", category := "misc",
                   starting_bid := 100, highest_bid_amount := 0, bin := 1,
                   start_time := 0, end_time := 9, last_updated := 0,
                   claimed := 0, fetch_timestamp := 1 }],
    history := [], sales := [] }

/-- Bazaar with "Gem" instant-sell (buy order) price 150. -/
def c5_bdb : BazaarDB :=
  { bazaar_current := [{ product_id := "Gem", sell_price := 160,
                         sell_volume := 1, sell_moving_week := 7,
                         sell_orders := 1, buy_price := 150, buy_volume := 1,
                         buy_moving_week := 7, buy_orders := 1,
                         timestamp := 1 }],
    bazaar_products := [] }

/-- Witness for C5: board lowest 100 versus bazaar instant-sell 150 reports
150 and market bazaar. -/
theorem best_price_rule_witness :
    (get_item_value c5_adb c5_bdb 0 "Gem" 1).best_price = some 150 ∧
    (get_item_value c5_adb c5_bdb 0 "Gem" 1).market = some "bazaar" := by
  have h := (best_price_rule c5_adb c5_bdb 0 "Gem" 1).1
    { uuid := "g1", item_name := "Gem", price := 100, tier := "RARE",
      auctioneer := "a" }
    { product_id := "Gem", sell_price := 160, buy_price := 150,
      sell_volume := 1, buy_volume := 1, sell_orders := 1, buy_orders := 1,
      sell_moving_week := 7, buy_moving_week := 7 }
    (by decide) (by decide)
  refine ⟨?_, ?_⟩
  · rw [h.1]
    norm_num
  · rw [h.2.2]
    norm_num

/-! ### Claim C9 -/

/-- Claim C9: when the lowest BIN exactly equals the bazaar instant-sell
price, the tie goes to the auction house (the code compares with
`ah_price >= bz_price`): best price is the board price and the market is
"auction_house". -/
theorem best_price_tie_auction_house (adb : AuctionDB) (bdb : BazaarDB)
    (now_ms : Int) (q : String) (n : Int) (a : LowestBin) (b : ProductInfo)
    (ha : get_lowest_bin adb q = some a) (hb : get_product_info bdb q = some b)
    (heq : (a.price : ℚ) = b.buy_price) :
    (get_item_value adb bdb now_ms q n).best_price = some (a.price : ℚ) ∧
    (get_item_value adb bdb now_ms q n).market = some "auction_house" := by
  have hge : (a.price : ℚ) ≥ b.buy_price := le_of_eq heq.symm
  simp [get_item_value, ha, hb, hge]

/-- Bazaar with "Gem" instant-sell price exactly 100, tying the board. -/
def c9_bdb : BazaarDB :=
  { bazaar_current := [{ product_id := "Gem", sell_price := 160,
                         sell_volume := 1, sell_moving_week := 7,
                         sell_orders := 1, buy_price := 100, buy_volume := 1,
                         buy_moving_week := 7, buy_orders := 1,
                         timestamp := 1 }],
    bazaar_products := [] }

/-- Witness for C9: an exact 100-versus-100 tie resolves to the auction
house. -/
theorem best_price_tie_auction_house_witness :
    (get_item_value c5_adb c9_bdb 0 "Gem" 1).market = some "auction_house" := by
  have h := best_price_tie_auction_house c5_adb c9_bdb 0 "Gem" 1
    { uuid := "g1", item_name := "Gem", price := 100, tier := "RARE",
      auctioneer := "a" }
    { product_id := "Gem", sell_price := 160, buy_price := 100,
      sell_volume := 1, buy_volume := 1, sell_orders := 1, buy_orders := 1,
      sell_moving_week := 7, buy_moving_week := 7 }
    (by decide) (by decide) (by norm_num)
  exact h.2

/-! ### Claim C6 -/

lemma roundHalfEven_nonneg (q : ℚ) (h : 0 ≤ q) : 0 ≤ roundHalfEven q := by
  unfold roundHalfEven
  have hf : (0 : ℤ) ≤ ⌊q⌋ := Int.floor_nonneg.mpr h
  dsimp only
  split_ifs <;> omega

lemma round2_nonneg (q : ℚ) (h : 0 ≤ q) : 0 ≤ round2 q := by
  unfold round2
  apply div_nonneg _ (by norm_num)
  exact_mod_cast roundHalfEven_nonneg _ (mul_nonneg h (by norm_num))

/-- `get_sales_per_day` returns no statistics exactly when no sale row
matches the queried name exactly within the window. -/
lemma get_sales_per_day_none_iff (db : AuctionDB) (now_ms : Int) (q : String)
    (days : Nat) :
    get_sales_per_day db now_ms q days = none ↔
      salesWindow db now_ms q days = [] := by
  unfold get_sales_per_day
  cases h : salesWindow db now_ms q days <;> simp [h]

/-- A returned daily rate is strictly positive: at least one sale in the
window divided by the 7-day period. -/
lemma get_sales_per_day_daily_pos {db : AuctionDB} {now_ms : Int} {q : String}
    {sd : SalesStats} (h : get_sales_per_day db now_ms q 7 = some sd) :
    0 < sd.daily_sales := by
  unfold get_sales_per_day at h
  cases hm : salesWindow db now_ms q 7 with
  | nil => rw [hm] at h; cases h
  | cons m ms =>
      rw [hm] at h
      have hsd := Option.some.inj h
      rw [← hsd]
      have : (0 : ℚ) < ((ms.length + 1 : Nat) : ℚ) := by positivity
      positivity

/-- With a board price and window statistics present, `sales_per_day` is the
rounded auction daily rate (the bazaar fallback never fires because the rate
is positive, hence its rounding is ≥ 0 ≠ −1). -/
lemma spd_eq_auction_rate {adb : AuctionDB} (bdb : BazaarDB) {now_ms : Int}
    {q : String} (n : Int) {a : LowestBin} {sd : SalesStats}
    (ha : get_lowest_bin adb q = some a)
    (hsd : get_sales_per_day adb now_ms q 7 = some sd) :
    (get_item_value adb bdb now_ms q n).sales_per_day =
      round2 sd.daily_sales := by
  have hpos := get_sales_per_day_daily_pos hsd
  have h0 : (sd.daily_sales == 0) = false := by
    rw [beq_eq_false_iff_ne]
    exact ne_of_gt hpos
  have hne : (round2 sd.daily_sales == (-1 : ℚ)) = false := by
    rw [beq_eq_false_iff_ne]
    intro heq
    have hnn := round2_nonneg _ (le_of_lt hpos)
    rw [heq] at hnn
    norm_num at hnn
  cases hbz : get_product_info bdb q <;>
    simp [get_item_value, ha, hsd, h0, hbz, hne]

/-- With no auction signal (no board price, or no sale in the window) and a
bazaar record with nonzero buy-moving-week, `sales_per_day` is that weekly
volume divided by 7, rounded. -/
lemma spd_eq_bazaar_fallback {adb : AuctionDB} {bdb : BazaarDB} {now_ms : Int}
    {q : String} (n : Int) {b : ProductInfo}
    (hno : get_lowest_bin adb q = none ∨ get_sales_per_day adb now_ms q 7 = none)
    (hb : get_product_info bdb q = some b) (hbmw : ¬ b.buy_moving_week = 0) :
    (get_item_value adb bdb now_ms q n).sales_per_day =
      round2 ((b.buy_moving_week : ℚ) / 7) := by
  have hbmw2 : (b.buy_moving_week == 0) = false := by
    rw [beq_eq_false_iff_ne]
    exact hbmw
  rcases hno with ha | hsd
  · simp [get_item_value, ha, hb, hbmw2]
  · cases ha : get_lowest_bin adb q <;>
      simp [get_item_value, ha, hsd, hb, hbmw2]

/-- With no auction signal and no usable bazaar signal (product absent, or
buy-moving-week exactly 0 — Python truthiness treats 0 as missing),
`sales_per_day` stays at the −1 sentinel. -/
lemma spd_eq_sentinel {adb : AuctionDB} {bdb : BazaarDB} {now_ms : Int}
    {q : String} (n : Int)
    (hno : get_lowest_bin adb q = none ∨ get_sales_per_day adb now_ms q 7 = none)
    (hbz : get_product_info bdb q = none ∨
      ∃ b, get_product_info bdb q = some b ∧ b.buy_moving_week = 0) :
    (get_item_value adb bdb now_ms q n).sales_per_day = -1 := by
  rcases hbz with hb | ⟨b, hb, hbmw⟩
  · rcases hno with ha | hsd
    · simp [get_item_value, ha, hb]
    · cases ha : get_lowest_bin adb q <;>
        simp [get_item_value, ha, hsd, hb]
  · rcases hno with ha | hsd
    · simp [get_item_value, ha, hb, hbmw]
    · cases ha : get_lowest_bin adb q <;>
        simp [get_item_value, ha, hsd, hb, hbmw]

/-- Claim C6 as amended: `sales_per_day` is the rounded auction daily rate
when the board price and window statistics exist; otherwise, when a bazaar
record exists with a nonzero buy-moving-week, it is that volume divided by
7 (rounded); otherwise it stays at the sentinel −1 — in particular a
buy-moving-week of exactly 0 is treated as "no data" too (Python
truthiness) and also yields −1, so it is NOT distinguishable from missing
moving-week data. -/
theorem sales_per_day_sentinel_amended (adb : AuctionDB) (bdb : BazaarDB)
    (now_ms : Int) (q : String) (n : Int) :
    (∀ a sd, get_lowest_bin adb q = some a →
      get_sales_per_day adb now_ms q 7 = some sd →
      (get_item_value adb bdb now_ms q n).sales_per_day =
        round2 sd.daily_sales) ∧
    ((get_lowest_bin adb q = none ∨ get_sales_per_day adb now_ms q 7 = none) →
      ∀ b, get_product_info bdb q = some b → ¬ b.buy_moving_week = 0 →
      (get_item_value adb bdb now_ms q n).sales_per_day =
        round2 ((b.buy_moving_week : ℚ) / 7)) ∧
    ((get_lowest_bin adb q = none ∨ get_sales_per_day adb now_ms q 7 = none) →
      (get_product_info bdb q = none ∨
        ∃ b, get_product_info bdb q = some b ∧ b.buy_moving_week = 0) →
      (get_item_value adb bdb now_ms q n).sales_per_day = -1) := by
  refine ⟨?_, ?_, ?_⟩
  · intro a sd ha hsd
    exact spd_eq_auction_rate bdb n ha hsd
  · intro hno b hb hbmw
    exact spd_eq_bazaar_fallback n hno hb hbmw
  · intro hno hbz
    exact spd_eq_sentinel n hno hbz

/-- Concrete auction store for the C6 counterexample: "Widget" is listed
(BIN, unclaimed) but has no recorded sales. -/
def c6_adb : AuctionDB :=
  { auctions := [{ uuid := "w1", auctioneer := "a", profile_id := "p",
                   item_name := "Widget", tier := "RARE", category := "misc",
                   starting_bid := 5, highest_bid_amount := 0, bin := 1,
                   start_time := 0, end_time := 9, last_updated := 0,
                   claimed := 0, fetch_timestamp := 1 }],
    history := [], sales := [] }

/-- Concrete bazaar store for the C6 counterexample: "Widget" is present
with a buy-moving-week of exactly 0. -/
def c6_bdb : BazaarDB :=
  { bazaar_current := [{ product_id := "Widget", sell_price := 3,
                         sell_volume := 1, sell_moving_week := 0,
                         sell_orders := 1, buy_price := 2, buy_volume := 1,
                         buy_moving_week := 0, buy_orders := 1,
                         timestamp := 1 }],
    bazaar_products := [] }

/-- Counterexample to C6: an item with zero recorded auction sales whose
bazaar buy-moving-week is exactly 0 yields sales_per_day = −1, not 0 — the
two "no auction signal" outcomes are indistinguishable, contrary to the
claim. -/
theorem velocity_zero_moving_week_not_zero :
    get_sales_per_day c6_adb 10 "Widget" 7 = none ∧
    (get_product_info c6_bdb "Widget").map (fun p => p.buy_moving_week)
      = some 0 ∧
    (get_item_value c6_adb c6_bdb 10 "Widget" 1).sales_per_day = -1 ∧
    ¬ (get_item_value c6_adb c6_bdb 10 "Widget" 1).sales_per_day = 0 := by
  refine ⟨by decide, by decide, by decide, by decide⟩

/-- Witness for the amended C6: the bazaar fallback (moving week 14 gives a
rounded 2.0 per day) and the both-signals-absent sentinel, at concrete
inputs. -/
theorem sales_per_day_sentinel_amended_witness :
    (get_item_value c6_adb c5_bdb 10 "Widget" 1).sales_per_day = -1 := by
  have h := (sales_per_day_sentinel_amended c6_adb c5_bdb 10 "Widget" 1).2.2
    (Or.inr (by decide)) (Or.inl (by decide))
  exact h

/-! ### Claim C7 -/

/-- Claim C7: the summary's total value is the sum of `total_value` over the
found (named) items; with a chest cost c, profit = total − c,
is_profitable = (profit > 0), and roi_percent = profit / c × 100 guarded to
0 when c = 0; with no cost, profit is reported as null and neither
profitability nor ROI is computed (keys absent). -/
theorem chest_aggregation (adb : AuctionDB) (bdb : BazaarDB) (now_ms : Int)
    (items : List ChestItem) :
    (∀ cost : Option ℚ,
      (calculate_chest_value adb bdb now_ms items cost).summary.total_value =
        (((items.filter (fun it => !(it.name == ""))).map
          (fun it => get_item_value adb bdb now_ms it.name it.quantity)).filterMap
          (fun iv => iv.best_price.map (fun _ => iv.total_value))).sum) ∧
    (∀ c : ℚ,
      (calculate_chest_value adb bdb now_ms items (some c)).summary.profit =
        some ((calculate_chest_value adb bdb now_ms items
          (some c)).summary.total_value - c) ∧
      (calculate_chest_value adb bdb now_ms items (some c)).summary.is_profitable =
        some (decide (0 < (calculate_chest_value adb bdb now_ms items
          (some c)).summary.total_value - c)) ∧
      (calculate_chest_value adb bdb now_ms items (some c)).summary.roi_percent =
        some (if 0 < c then
          ((calculate_chest_value adb bdb now_ms items
            (some c)).summary.total_value - c) / c * 100
        else 0) ∧
      (c = 0 →
        (calculate_chest_value adb bdb now_ms items
          (some c)).summary.roi_percent = some 0)) ∧
    ((calculate_chest_value adb bdb now_ms items none).summary.profit = none ∧
     (calculate_chest_value adb bdb now_ms items none).summary.is_profitable
       = none ∧
     (calculate_chest_value adb bdb now_ms items none).summary.roi_percent
       = none) := by
  refine ⟨?_, ?_, rfl, rfl, rfl⟩
  · intro cost
    cases cost
    · exact (chest_loop_counts adb bdb now_ms items).2.2
    · exact (chest_loop_counts adb bdb now_ms items).2.2
  · intro c
    refine ⟨rfl, rfl, rfl, ?_⟩
    intro hc
    subst hc
    simp [calculate_chest_value]

/-- An item found only on the listing board: its price and total. -/
lemma get_item_value_ah_only {adb : AuctionDB} {bdb : BazaarDB} {now_ms : Int}
    {q : String} (n : Int) {a : LowestBin}
    (ha : get_lowest_bin adb q = some a) (hb : get_product_info bdb q = none) :
    (get_item_value adb bdb now_ms q n).best_price = some (a.price : ℚ) ∧
    (get_item_value adb bdb now_ms q n).total_value = (a.price : ℚ) * (n : ℚ) := by
  constructor <;> simp [get_item_value, ha, hb]

/-- Concrete snapshot for the C7 witness: "A" listed at 100 and "B" at 50. -/
def c7_adb : AuctionDB :=
  { auctions := [{ uuid := "x1", auctioneer := "a", profile_id := "p",
                   item_name := "A", tier := "RARE", category := "misc",
                   starting_bid := 100, highest_bid_amount := 0, bin := 1,
                   start_time := 0, end_time := 9, last_updated := 0,
                   claimed := 0, fetch_timestamp := 1 },
                 { uuid := "x2", auctioneer := "a", profile_id := "p",
                   item_name := "B", tier := "RARE", category := "misc",
                   starting_bid := 50, highest_bid_amount := 0, bin := 1,
                   start_time := 0, end_time := 9, last_updated := 0,
                   claimed := 0, fetch_timestamp := 1 }],
    history := [], sales := [] }

/-- The claim's example chest: one "A" and two "B". -/
def c7_items : List ChestItem :=
  [{ name := "A", quantity := 1 }, { name := "B", quantity := 2 }]

/-- Witness for C7, the claim's example: values 100 and 2 × 50 with cost 150
give profit 50, profitable, ROI 100/3 ≈ 33.3%; cost 0 gives ROI 0. -/
theorem chest_aggregation_witness :
    (calculate_chest_value c7_adb initial_bazaar_db 0 c7_items
      (some 150)).summary.profit = some 50 ∧
    (calculate_chest_value c7_adb initial_bazaar_db 0 c7_items
      (some 150)).summary.is_profitable = some true ∧
    (calculate_chest_value c7_adb initial_bazaar_db 0 c7_items
      (some 150)).summary.roi_percent = some (100 / 3) ∧
    (calculate_chest_value c7_adb initial_bazaar_db 0 c7_items
      (some 0)).summary.roi_percent = some 0 := by
  have h := chest_aggregation c7_adb initial_bazaar_db 0 c7_items
  have hA := @get_item_value_ah_only c7_adb initial_bazaar_db 0 "A" 1
    { uuid := "x1", item_name := "A", price := 100, tier := "RARE",
      auctioneer := "a" } (by decide) (by decide)
  have hB := @get_item_value_ah_only c7_adb initial_bazaar_db 0 "B" 2
    { uuid := "x2", item_name := "B", price := 50, tier := "RARE",
      auctioneer := "a" } (by decide) (by decide)
  have ht : (calculate_chest_value c7_adb initial_bazaar_db 0 c7_items
      (some 150)).summary.total_value = 200 := by
    rw [h.1 (some 150)]
    rw [show c7_items.filter (fun it => !(it.name == "")) = c7_items by decide]
    simp only [c7_items, List.map_cons, List.map_nil, List.filterMap_cons,
      List.filterMap_nil, hA.1, hA.2, hB.1, hB.2, Option.map_some,
      List.sum_cons, List.sum_nil]
    norm_num
  refine ⟨?_, ?_, ?_, (h.2.1 0).2.2.2 rfl⟩
  · rw [(h.2.1 150).1, ht]
    norm_num
  · rw [(h.2.1 150).2.1, ht]
    norm_num
  · rw [(h.2.1 150).2.2.1, ht]
    norm_num

/-! ### Claim C10 -/

/-- The two polls that set up the C10 counterexample: a BIN listing of
"FOO_BAR" that vanishes in the second poll (leaving a sale record under the
exact raw name) while a differently-spelled "foo bar" listing appears. -/
def c10_in1 : AuctionInput :=
  { uuid := "u1", auctioneer := "a", profile_id := "p", item_name := "FOO_BAR",
    tier := "RARE", category := "misc", starting_bid := 10,
    highest_bid_amount := 0, bin := true, start := 0, end_time := 50,
    last_updated := 0, claimed := false }

/-- The second poll's listing, matching "FOO_BAR" only case-insensitively
after underscore-to-space conversion. -/
def c10_in2 : AuctionInput :=
  { uuid := "u2", auctioneer := "a", profile_id := "p", item_name := "foo bar",
    tier := "RARE", category := "misc", starting_bid := 20,
    highest_bid_amount := 0, bin := true, start := 0, end_time := 50,
    last_updated := 0, claimed := false }

/-- The store reached by ingesting the two C10 polls in order. -/
def c10_db : AuctionDB :=
  store_auctions (store_auctions initial_auction_db [c10_in1] 100)
    [c10_in2] 200

/-- Counterexample to C10: the board price of "FOO_BAR" is found only via a
fallback variant (the exact query fails), yet the auction-derived velocity
for the raw name IS found — a sale record under the exact raw name from the
earlier poll supplies it — so sales_per_day is 7/50 (= round(1/7, 2)), not
the sentinel. -/
theorem raw_name_velocity_found_despite_fallback :
    ahExact c10_db "FOO_BAR" = none ∧
    (get_lowest_bin c10_db "FOO_BAR").isSome = true ∧
    (salesWindow c10_db 200 "FOO_BAR" 7).length = 1 ∧
    ¬ (get_item_value c10_db initial_bazaar_db 200 "FOO_BAR" 1).sales_per_day
      = -1 := by
  refine ⟨by decide, by decide, by decide, ?_⟩
  have hsome : (get_lowest_bin c10_db "FOO_BAR").isSome = true := by decide
  obtain ⟨a, ha⟩ := Option.isSome_iff_exists.mp hsome
  have hsds : (get_sales_per_day c10_db 200 "FOO_BAR" 7).isSome = true := by
    decide
  obtain ⟨sd, hsd⟩ := Option.isSome_iff_exists.mp hsds
  rw [spd_eq_auction_rate initial_bazaar_db 1 ha hsd]
  have hpos := get_sales_per_day_daily_pos hsd
  have hnn := round2_nonneg _ (le_of_lt hpos)
  intro heq
  rw [heq] at hnn
  norm_num at hnn

/-- Claim C10 as amended: `get_item_value` hands the raw, unresolved name to
`get_sales_per_day`, which selects sale rows by exact string equality on
that name (every selected row's item name is the raw name; no statistics
exactly when no row matches); consequently, when NO sale record matches the
raw name exactly within the window, sales_per_day stays at the sentinel
unless bazaar moving-week data supplies it — but a price found only via a
fallback variant does not by itself imply the velocity is missing, since
sale records under the exact raw name may exist from earlier polls. -/
theorem raw_name_velocity_amended (adb : AuctionDB) (bdb : BazaarDB)
    (now_ms : Int) (q : String) (n : Int) :
    (get_sales_per_day adb now_ms q 7 = none ↔
      salesWindow adb now_ms q 7 = []) ∧
    (∀ s ∈ salesWindow adb now_ms q 7, s.item_name = q) ∧
    (salesWindow adb now_ms q 7 = [] →
      ∀ b, get_product_info bdb q = some b → ¬ b.buy_moving_week = 0 →
      (get_item_value adb bdb now_ms q n).sales_per_day =
        round2 ((b.buy_moving_week : ℚ) / 7)) ∧
    (salesWindow adb now_ms q 7 = [] →
      (get_product_info bdb q = none ∨
        ∃ b, get_product_info bdb q = some b ∧ b.buy_moving_week = 0) →
      (get_item_value adb bdb now_ms q n).sales_per_day = -1) := by
  refine ⟨get_sales_per_day_none_iff adb now_ms q 7, ?_, ?_, ?_⟩
  · intro s hs
    have := List.of_mem_filter hs
    simp only [Bool.and_eq_true, beq_iff_eq] at this
    exact this.1
  · intro hw b hb hbmw
    exact spd_eq_bazaar_fallback n
      (Or.inr ((get_sales_per_day_none_iff adb now_ms q 7).mpr hw)) hb hbmw
  · intro hw hbz
    exact spd_eq_sentinel n
      (Or.inr ((get_sales_per_day_none_iff adb now_ms q 7).mpr hw)) hbz

/-- Witness for the amended C10: "Widget" has a board price but no sale rows
and no bazaar record, so its velocity stays at the sentinel. -/
theorem raw_name_velocity_amended_witness :
    (get_item_value c6_adb initial_bazaar_db 10 "Widget" 1).sales_per_day
      = -1 := by
  exact (raw_name_velocity_amended c6_adb initial_bazaar_db 10 "Widget" 1).2.2.2
    (by decide) (Or.inl (by decide))

example : (store_auctions initial_auction_db [] 5).auctions = [] := rfl

example :
    (store_auctions
      { auctions := [toAuctionRow
          { uuid := "u1", auctioneer := "a", profile_id := "p",
            item_name := "Foo", tier := "RARE", category := "misc",
            starting_bid := 7, highest_bid_amount := 0, bin := true,
            start := 0, end_time := 9, last_updated := 0, claimed := false } 1],
        history := [], sales := [] } [] 5).sales =
    [{ uuid := "u1", item_name := "Foo", tier := "RARE", price := 7,
       first_seen := 1, last_seen := 1, sold_timestamp := 5 }] := by decide
